import Mathlib

/-!
Shallow embedding of the turn-update merge core of the "Echoes of the
Forgotten" front-end: the data model (`src/types.ts`), the reducer
`handleApiResponse` and the controller `handleAction` (`src/App.tsx`),
and the service boundary `sendPlayerAction` / `processResponse`
(`src/services/geminiService.ts`).

Modelling conventions:
- JavaScript strings are `String`; a field that may be `undefined` at
  runtime is an `Option`.
- The TypeScript enum types (`LocationId`, `GamePhase`) are string-valued
  at runtime and the reducer performs no membership check, so the
  corresponding `GameState` fields are plain `String`s; the closed sets are
  given as lists (`locationIds`).
- The ambient clock (`Date.now()`) is made an explicit `Nat` parameter
  `t`; `Date.now().toString()` is `toString t` and
  `new Date().toISOString()` is `toISOString t` (an injective rendering of
  the same clock reading).
- JavaScript truthiness tests (`if (x)`) on optional strings are
  `truthyS` (absent and the empty string are falsy), on optional booleans
  `truthyB`.
- A JavaScript `TypeError` (reading a property of `undefined`) is
  modelled by returning `Except.error`; a total JS function returns its
  value directly.
- React `useState` is modelled by explicit state passing: `AppState`
  carries the `GameState` plus the `isLoading` busy flag and the input
  buffer.  The transient `showMemoryOverlay` flash and its timer are
  presentation-only and not modelled.
-/

namespace DD

/-- The closed set of location ids, from the `LocationId` enum in
`src/types.ts`. -/
def locationIds : List String :=
  ["station", "town_square", "old_library", "observatory", "forest", "mayas_house"]

/-- A clue record (`Clue` in `src/types.ts`). -/
structure Clue where
  id : String
  name : String
  description : String
  discoveredAt : String
deriving DecidableEq

/-- One narrative-log entry (`NarrativeEntry` in `src/types.ts`). -/
structure NarrativeEntry where
  id : String
  speaker : String
  text : String
  type : String
  timestamp : Nat
deriving DecidableEq

/-- A puzzle descriptor (`PuzzleState` in `src/types.ts`); carried but
never touched by the turn-merge logic. -/
structure PuzzleState where
  id : String
  description : String
  type : String
  solved : Bool
deriving DecidableEq

/-- The root game state (`GameState` in `src/types.ts`).  `trust` is an
association list standing for the string-keyed record. -/
structure GameState where
  currentLocation : String
  inventory : List String
  clues : List Clue
  narrativeHistory : List NarrativeEntry
  phase : String
  trust : List (String × Nat)
  puzzleActive : Option PuzzleState
deriving DecidableEq

/-- The `clueAdded` payload `{name, description}` of the tool schema. -/
structure ClueAdd where
  name : String
  description : String
deriving DecidableEq

/-- The optional update fields of a turn (`response.updates` as read by
`handleApiResponse`). -/
structure UpdateFields where
  newLocation : Option String
  itemAdded : Option String
  itemRemoved : Option String
  clueAdded : Option ClueAdd
  memoryTriggered : Option Bool
deriving DecidableEq

/-- An `updates` object with every optional field absent (the `{}` the
text and placeholder paths of `processResponse` produce). -/
def emptyUpdates : UpdateFields :=
  { newLocation := none, itemAdded := none, itemRemoved := none,
    clueAdded := none, memoryTriggered := none }

/-- JavaScript truthiness of an optional string: `undefined` and `""` are
falsy. -/
def truthyS : Option String → Bool
  | none => false
  | some s => !(s == "")

/-- JavaScript truthiness of an optional boolean. -/
def truthyB : Option Bool → Bool
  | none => false
  | some b => b

/-- Stand-in for `new Date().toISOString()` at clock reading `t`: an
injective rendering of the clock, distinct from `Date.now().toString()`. -/
def toISOString (t : Nat) : String := "ISO:" ++ toString t

/-- First-occurrence de-duplication with an accumulator of already-seen
elements; `jsSet` below instantiates it. -/
def firstDedupAux : List String → List String → List String
  | [], _ => []
  | x :: xs, seen =>
      if x ∈ seen then firstDedupAux xs seen else x :: firstDedupAux xs (x :: seen)

/-- The JavaScript `[...new Set(l)]`: de-duplicate keeping the first
occurrence of each element, preserving order. -/
def jsSet (l : List String) : List String := firstDedupAux l []

/-- The GM narrative entry `handleApiResponse` constructs for a turn:
`{id: Date.now().toString(), speaker: 'GM', text: response.narrative,
type: updates.memoryTriggered ? 'memory' : 'description',
timestamp: Date.now()}`. -/
def gmEntry (narrative : String) (u : UpdateFields) (t : Nat) : NarrativeEntry :=
  { id := toString t, speaker := "GM", text := narrative,
    type := if truthyB u.memoryTriggered then "memory" else "description",
    timestamp := t }

/-- The clue `handleApiResponse` synthesizes from a `clueAdded` payload at
clock reading `t`. -/
def mkClue (c : ClueAdd) (t : Nat) : Clue :=
  { id := toString t, name := c.name, description := c.description,
    discoveredAt := toISOString t }

/-- The state-merge body of `handleApiResponse` (src/App.tsx lines 74-114),
for a response whose `updates` object is present.  Note the source uses
`prev.inventory` in both the `itemAdded` and the `itemRemoved` branch, so a
remove overwrites a preceding add, and assigns `newLocation` with no
membership check. -/
def applyUpdate (prev : GameState) (narrative : String) (u : UpdateFields) (t : Nat) :
    GameState :=
  let entry := gmEntry narrative u t
  let s1 := { prev with narrativeHistory := prev.narrativeHistory ++ [entry] }
  let s2 := if truthyS u.newLocation then
      { s1 with currentLocation := u.newLocation.getD "" } else s1
  let s3 := if truthyS u.itemAdded then
      { s2 with inventory := jsSet (prev.inventory ++ [u.itemAdded.getD ""]) } else s2
  let s4 := if truthyS u.itemRemoved then
      { s3 with inventory := prev.inventory.filter (fun i => !(i == u.itemRemoved.getD "")) }
    else s3
  match u.clueAdded with
  | some c => { s4 with clues := prev.clues ++ [mkClue c t] }
  | none => s4

/-- The initial `GameState` from the `useState` initializer in
`src/App.tsx`. -/
def initialState : GameState :=
  { currentLocation := "station", inventory := [], clues := [],
    narrativeHistory := [], phase := "start",
    trust := [("Silas", 30), ("Evelyn", 50), ("Jonas", 10)],
    puzzleActive := none }

/-- The arguments of an `updateGameState` structured call.  The tool schema
(`updateGameStateTool` in `src/services/geminiService.ts`) marks
`narrative` required and every other field optional. -/
structure TurnArgs where
  narrative : String
  newLocation : Option String
  itemAdded : Option String
  itemRemoved : Option String
  clueAdded : Option ClueAdd
  memoryTriggered : Option Bool
deriving DecidableEq

/-- A function-call payload inside a reply part.  In the SDK every field,
`args` included, may be absent. -/
structure FunctionCall where
  name : Option String
  id : Option String
  args : Option TurnArgs
deriving DecidableEq

/-- One part of a reply candidate's content: a function call, text, both
or neither. -/
structure ReplyPart where
  functionCall : Option FunctionCall
  text : Option String
deriving DecidableEq

/-- A candidate's content: an optional list of parts. -/
structure ReplyContent where
  parts : Option (List ReplyPart)
deriving DecidableEq

/-- One reply candidate. -/
structure Candidate where
  content : Option ReplyContent
deriving DecidableEq

/-- The raw service reply handed to `processResponse`. -/
structure RawResult where
  candidates : Option (List Candidate)
deriving DecidableEq

/-- The response object the service layer returns to `App.tsx`: the output
shape of `processResponse`, and also of the two error returns of
`sendPlayerAction` / `initializeGame` — those error returns carry no
`updates` field at all, hence `updates : Option UpdateFields`. -/
structure ApiResponse where
  narrative : String
  updates : Option UpdateFields
  error : Option Bool
  toolCallId : Option String
  functionName : Option String
deriving DecidableEq

/-- The parts list `result.candidates?.[0]?.content?.parts` of a raw
reply, with an absent list read as empty (a `find` over `undefined`
yields `undefined`, exactly as `List.find?` over `[]` yields `none`). -/
def partsOf (result : RawResult) : List ReplyPart :=
  ((((result.candidates.bind List.head?).bind Candidate.content).bind
    ReplyContent.parts).getD [])

/-- The first part carrying a (truthy, i.e. present) function call:
`parts?.find(p => p.functionCall)`. -/
def findFunctionCallPart (result : RawResult) : Option ReplyPart :=
  (partsOf result).find? (fun p => p.functionCall.isSome)

/-- The first part carrying truthy text: `parts?.find(p => p.text)`
(an empty-string `text` is falsy and skipped). -/
def findTextPart (result : RawResult) : Option ReplyPart :=
  (partsOf result).find? (fun p => truthyS p.text)

/-- The `processResponse` normalizer (src/services/geminiService.ts lines
128-159).  The structured path reads `part.functionCall.args` with no
guard, so a function call whose `args` is absent raises a `TypeError`
(modelled as `Except.error`); the text and placeholder paths return
`updates: {}`. -/
def processResponse (result : RawResult) : Except String ApiResponse :=
  match findFunctionCallPart result with
  | some part =>
      match part.functionCall with
      | some fc =>
          match fc.args with
          | none => Except.error "TypeError: cannot read properties of undefined"
          | some args =>
              Except.ok
                { narrative := args.narrative,
                  updates := some
                    { newLocation := args.newLocation,
                      itemAdded := args.itemAdded,
                      itemRemoved := args.itemRemoved,
                      clueAdded := args.clueAdded,
                      memoryTriggered := args.memoryTriggered },
                  error := none,
                  toolCallId := fc.id,
                  functionName := fc.name }
      | none => Except.error "unreachable: find? guaranteed a function call"
  | none =>
      match findTextPart result with
      | some textPart =>
          Except.ok
            { narrative := textPart.text.getD "", updates := some emptyUpdates,
              error := none, toolCallId := none, functionName := none }
      | none =>
          Except.ok
            { narrative := "...", updates := some emptyUpdates,
              error := none, toolCallId := none, functionName := none }

/-- Outcome of the awaited `chatSession.sendMessage` promise for one turn:
it either resolves to a raw reply or rejects. -/
inductive ServiceOutcome
  | success (raw : RawResult)
  | failure
deriving DecidableEq

/-- The error object `sendPlayerAction`'s catch block returns; note it has
no `updates` field. -/
def apiErrorResponse : ApiResponse :=
  { narrative := "The whispers are too loud... (API Error)", updates := none,
    error := some true, toolCallId := none, functionName := none }

/-- `sendPlayerAction` (src/services/geminiService.ts lines 103-126).  The
module-level `chatSession` handle is the explicit `session` argument; the
serialized context string only feeds the opaque service, so `currentState`
does not affect the returned value.  Both the `sendMessage` rejection and
a `processResponse` throw happen inside the `try`, so the function itself
always returns (never throws). -/
def sendPlayerAction (session : Option Unit) (action : String)
    (currentState : GameState) (svc : ServiceOutcome) : ApiResponse :=
  match session with
  | none =>
      { narrative := "Game session lost. Please restart.", updates := none,
        error := some true, toolCallId := none, functionName := none }
  | some _ =>
      match svc with
      | ServiceOutcome.failure => apiErrorResponse
      | ServiceOutcome.success raw =>
          match processResponse raw with
          | Except.ok r => r
          | Except.error _ => apiErrorResponse

/-- `handleApiResponse` (src/App.tsx lines 74-114) as seen from its
caller: it first reads `response.updates.memoryTriggered`, so a response
with no `updates` object raises a `TypeError` before any state change;
otherwise it merges via `applyUpdate`. -/
def handleApiResponse (response : ApiResponse) (prev : GameState) (t : Nat) :
    Except String GameState :=
  match response.updates with
  | none => Except.error "TypeError: cannot read properties of undefined"
  | some u => Except.ok (applyUpdate prev response.narrative u t)

/-- The controller-visible application state: the `GameState` plus the
`isLoading` busy flag and the input buffer (`useState` hooks in
`src/App.tsx`). -/
structure AppState where
  gameState : GameState
  isLoading : Bool
  input : String
deriving DecidableEq

/-- The player entry `handleAction` appends synchronously:
`{id: Date.now().toString(), speaker: 'Alex', text: actionText,
type: 'action', timestamp: Date.now()}`. -/
def playerEntry (actionText : String) (t : Nat) : NarrativeEntry :=
  { id := toString t, speaker := "Alex", text := actionText,
    type := "action", timestamp := t }

/-- The synchronous prefix of `handleAction` (src/App.tsx lines 116-130),
up to the `await`: the `isLoading` guard, the immediate append of the
player entry, and `setIsLoading(true)`. -/
def submitAction (app : AppState) (actionText : String) (t : Nat) : AppState :=
  if app.isLoading then app
  else
    { app with
      gameState :=
        { app.gameState with
          narrativeHistory := app.gameState.narrativeHistory ++ [playerEntry actionText t] },
      isLoading := true }

/-- Result of one whole `handleAction` call: the application state it
leaves behind, and whether an exception escaped the async function
(`threw = true` means `setIsLoading(false)` and `setInput('')` were
skipped). -/
structure TurnOutcome where
  state : AppState
  threw : Bool
deriving DecidableEq

/-- The continuation of `handleAction` after the `await` (src/App.tsx
lines 131-135): pass the service response to `handleApiResponse`
(unchecked — a response without `updates` makes it throw, aborting before
`setIsLoading(false)`), then clear the busy flag and the input.
`preState` is the `gameState` value captured by the `useCallback` closure,
i.e. the state before this turn's player entry. -/
def resumeTurn (app1 : AppState) (preState : GameState) (actionText : String)
    (session : Option Unit) (svc : ServiceOutcome) (t2 : Nat) : TurnOutcome :=
  let response := sendPlayerAction session actionText preState svc
  match handleApiResponse response app1.gameState t2 with
  | Except.error _ => { state := app1, threw := true }
  | Except.ok gs =>
      { state := { app1 with gameState := gs, isLoading := false, input := "" },
        threw := false }

/-- One whole `handleAction` turn (src/App.tsx lines 116-136): guard on
the busy flag, synchronous player append, service round-trip, merge.
`t1` is the clock at submission, `t2` at reply processing. -/
def handleAction (app : AppState) (actionText : String) (session : Option Unit)
    (svc : ServiceOutcome) (t1 t2 : Nat) : TurnOutcome :=
  if app.isLoading then { state := app, threw := false }
  else resumeTurn (submitAction app actionText t1) app.gameState actionText session svc t2

/-- Fold of `applyUpdate` over a sequence of turn updates, each a triple
of narrative text, update fields and clock reading. -/
def applySeq (s : GameState) (steps : List (String × UpdateFields × Nat)) : GameState :=
  steps.foldl (fun st p => applyUpdate st p.1 p.2.1 p.2.2) s

/-- The ids handed to the clues a sequence of updates creates: one
`Date.now().toString()` per step whose `clueAdded` is present. -/
def clueIdsAdded (steps : List (String × UpdateFields × Nat)) : List String :=
  steps.filterMap (fun p => p.2.1.clueAdded.map (fun _ => toString p.2.2))

/-- An update that only adds the item "Key" (for the duplicate-add
scenario of the spec). -/
def keyU : UpdateFields := { emptyUpdates with itemAdded := some "Key" }

/-- A turn update that only adds a clue (for the id-collision scenario). -/
def clueU : UpdateFields :=
  { emptyUpdates with clueAdded := some { name := "Strange Note", description := "torn" } }

/-- The application state a turn starts from in the failed-turn scenario:
the initial game state, controller idle, some pending input. -/
def failedTurnStart : AppState :=
  { gameState := initialState, isLoading := false, input := "x" }

/-- One complete `handleAction` turn in which the service promise
rejects: submitted at clock 10, reply processed at clock 11. -/
def failedTurn : TurnOutcome :=
  handleAction failedTurnStart "search the desk" (some ()) ServiceOutcome.failure 10 11

/-- A reply part carrying a function call without an `args` object. -/
def argslessPart : ReplyPart :=
  { functionCall := some { name := some "updateGameState", id := none, args := none },
    text := none }

/-- The raw reply built from that part. -/
def argslessReply : RawResult :=
  { candidates := some [{ content := some { parts := some [argslessPart] } }] }

/-- Concrete structured-call arguments (the end-to-end scenario of the
spec). -/
def structuredArgs : TurnArgs :=
  { narrative := "You find a rusty key.", newLocation := none,
    itemAdded := some "Rusty Key", itemRemoved := none,
    clueAdded := some { name := "Strange Note", description := "torn" },
    memoryTriggered := none }

/-- A well-formed function call carrying those arguments. -/
def structuredCall : FunctionCall :=
  { name := some "updateGameState", id := some "call1", args := some structuredArgs }

/-- The reply part holding that call. -/
def structuredPart : ReplyPart :=
  { functionCall := some structuredCall, text := none }

/-- A raw reply with one structured call. -/
def structuredReply : RawResult :=
  { candidates := some [{ content := some { parts := some [structuredPart] } }] }

theorem mem_firstDedupAux {a : String} :
    ∀ (l seen : List String), a ∈ firstDedupAux l seen ↔ (a ∈ l ∧ a ∉ seen) := by
  intro l
  induction l with
  | nil => intro seen; simp [firstDedupAux]
  | cons x xs ih =>
      intro seen
      by_cases hx : x ∈ seen
      · rw [firstDedupAux, if_pos hx, ih]
        constructor
        · rintro ⟨h1, h2⟩; exact ⟨List.mem_cons_of_mem _ h1, h2⟩
        · rintro ⟨h1, h2⟩
          rcases List.mem_cons.mp h1 with h | h
          · subst h; exact absurd hx h2
          · exact ⟨h, h2⟩
      · rw [firstDedupAux, if_neg hx]
        by_cases hax : a = x
        · subst hax; simp [hx]
        · simp only [List.mem_cons, hax, false_or]
          rw [ih]
          simp [List.mem_cons, hax]

theorem nodup_firstDedupAux : ∀ (l seen : List String), (firstDedupAux l seen).Nodup := by
  intro l
  induction l with
  | nil => intro seen; simp [firstDedupAux]
  | cons x xs ih =>
      intro seen
      by_cases hx : x ∈ seen
      · rw [firstDedupAux, if_pos hx]; exact ih seen
      · rw [firstDedupAux, if_neg hx]
        refine List.nodup_cons.mpr ⟨?_, ih (x :: seen)⟩
        intro hmem
        exact (mem_firstDedupAux xs (x :: seen)).mp hmem |>.2 (List.mem_cons_self x seen)

theorem jsSet_nodup (l : List String) : (jsSet l).Nodup :=
  nodup_firstDedupAux l []

theorem firstDedupAux_append_singleton {a : String} :
    ∀ (l seen : List String), l.Nodup → (∀ x ∈ l, x ∉ seen) →
      firstDedupAux (l ++ [a]) seen =
        if a ∈ seen ∨ a ∈ l then l else l ++ [a] := by
  intro l
  induction l with
  | nil =>
      intro seen _ _
      by_cases ha : a ∈ seen <;> simp [firstDedupAux, ha]
  | cons x xs ih =>
      intro seen hnd hdisj
      have hx : x ∉ seen := hdisj x (List.mem_cons_self x xs)
      have hxs : xs.Nodup := (List.nodup_cons.mp hnd).2
      have hxxs : x ∉ xs := (List.nodup_cons.mp hnd).1
      have hdisj' : ∀ y ∈ xs, y ∉ x :: seen := by
        intro y hy
        simp only [List.mem_cons, not_or]
        exact ⟨fun h => hxxs (h ▸ hy), hdisj y (List.mem_cons_of_mem _ hy)⟩
      rw [List.cons_append, firstDedupAux, if_neg hx, ih (x :: seen) hxs hdisj']
      by_cases ha : a ∈ seen <;> by_cases hax : a = x <;> by_cases haxs : a ∈ xs <;>
        simp_all [List.mem_cons]

theorem jsSet_append_singleton {l : List String} {a : String} (h : l.Nodup) :
    jsSet (l ++ [a]) = if a ∈ l then l else l ++ [a] := by
  rw [jsSet, firstDedupAux_append_singleton l [] h (by simp)]
  simp

theorem applyUpdate_eq (prev : GameState) (n : String) (u : UpdateFields) (t : Nat) :
    applyUpdate prev n u t =
      { currentLocation :=
          if truthyS u.newLocation then u.newLocation.getD "" else prev.currentLocation,
        inventory :=
          if truthyS u.itemRemoved then
            prev.inventory.filter (fun i => !(i == u.itemRemoved.getD ""))
          else if truthyS u.itemAdded then
            jsSet (prev.inventory ++ [u.itemAdded.getD ""])
          else prev.inventory,
        clues := prev.clues ++ (u.clueAdded.map (fun c => mkClue c t)).toList,
        narrativeHistory := prev.narrativeHistory ++ [gmEntry n u t],
        phase := prev.phase,
        trust := prev.trust,
        puzzleActive := prev.puzzleActive } := by
  cases hc : u.clueAdded <;>
    by_cases h1 : truthyS u.newLocation <;>
    by_cases h2 : truthyS u.itemAdded <;>
    by_cases h3 : truthyS u.itemRemoved <;>
    simp [applyUpdate, hc, h1, h2, h3]

theorem applySeq_clues (steps : List (String × UpdateFields × Nat)) :
    ∀ s : GameState,
      (applySeq s steps).clues =
        s.clues ++ steps.filterMap (fun p => p.2.1.clueAdded.map (fun c => mkClue c p.2.2)) := by
  induction steps with
  | nil => intro s; simp [applySeq]
  | cons p ps ih =>
      intro s
      rw [applySeq, List.foldl_cons]
      have : applySeq (applyUpdate s p.1 p.2.1 p.2.2) ps =
          (ps.foldl (fun st q => applyUpdate st q.1 q.2.1 q.2.2)
            (applyUpdate s p.1 p.2.1 p.2.2)) := rfl
      rw [← this, ih]
      rw [applyUpdate_eq]
      cases hc : p.2.1.clueAdded <;> simp [hc]

/-- C1: the code crashes instead of surfacing a failed turn.  Starting
idle, a turn whose service promise rejects makes `handleApiResponse`
throw a `TypeError` (the error response has no `updates` object and
`handleAction` never checks `error`), so the exception escapes the
turn-handling code, no failure narrative entry is appended (the history
holds only the player entry) and the busy flag stays set instead of
returning to Idle. -/
theorem c1_turn_failure_crashes :
    failedTurn.threw = true ∧
    failedTurn.state.isLoading = true ∧
    failedTurn.state.gameState.narrativeHistory = [playerEntry "search the desk" 10] ∧
    ∀ e ∈ failedTurn.state.gameState.narrativeHistory, e.speaker ≠ "GM" := by
  decide

/-- C2 counterexample: with `itemAdded: "A"` and `itemRemoved: "B"` in
one update (A ≠ B), the resulting inventory does not contain the added
item, because the `itemRemoved` branch filters `prev.inventory` and
overwrites the add. -/
theorem c2_add_remove_counterexample :
    ("A" : String) ≠ "B" ∧
    "A" ∉ (applyUpdate initialState "n"
      { emptyUpdates with itemAdded := some "A", itemRemoved := some "B" } 0).inventory := by
  decide

/-- C2 (amended): when both `itemAdded` and `itemRemoved` are present
(truthy), the remove is computed from the original inventory, discarding
the add entirely: the final inventory is the pre-update inventory with
all occurrences of the removed name filtered out. -/
theorem c2_amended_remove_overrides_add (prev : GameState) (n : String)
    (u : UpdateFields) (t : Nat)
    (ha : truthyS u.itemAdded = true) (hr : truthyS u.itemRemoved = true) :
    (applyUpdate prev n u t).inventory =
      prev.inventory.filter (fun i => !(i == u.itemRemoved.getD "")) := by
  rw [applyUpdate_eq]
  simp [hr]

/-- C2 witness: the amended rule at the counterexample input. -/
theorem c2_amended_witness :
    (applyUpdate initialState "n"
      { emptyUpdates with itemAdded := some "A", itemRemoved := some "B" } 0).inventory =
      initialState.inventory.filter (fun i => !(i == "B")) :=
  c2_amended_remove_overrides_add initialState "n" _ 0 (by decide) (by decide)

/-- C3 counterexample: `newLocation: "atlantis"` is not in the closed
location set, yet applying it replaces `currentLocation` with
"atlantis" — the reducer performs no membership check. -/
theorem c3_atlantis_counterexample :
    (applyUpdate initialState "n"
      { emptyUpdates with newLocation := some "atlantis" } 0).currentLocation = "atlantis" ∧
    "atlantis" ∉ locationIds ∧
    initialState.currentLocation = "station" := by
  decide

/-- C3 (amended): any present non-empty `newLocation` replaces
`currentLocation` verbatim, an absent or empty one leaves it unchanged,
and membership in the closed set is preserved only under the extra
assumption that the update's `newLocation` is itself in the set (or
empty) — the validation the claim ascribes to the reducer actually lives
in the tool schema's enum at the service boundary. -/
theorem c3_amended_location_verbatim (prev : GameState) (n : String)
    (u : UpdateFields) (t : Nat) :
    (truthyS u.newLocation = true →
      (applyUpdate prev n u t).currentLocation = u.newLocation.getD "") ∧
    (truthyS u.newLocation = false →
      (applyUpdate prev n u t).currentLocation = prev.currentLocation) ∧
    (prev.currentLocation ∈ locationIds →
      (∀ s, u.newLocation = some s → s ∈ locationIds ∨ s = "") →
      (applyUpdate prev n u t).currentLocation ∈ locationIds) := by
  rw [applyUpdate_eq]
  refine ⟨fun h => by simp [h], fun h => by simp [h], ?_⟩
  intro hmem hval
  cases hn : u.newLocation with
  | none => simp [truthyS, hn, hmem]
  | some s =>
      by_cases hs : s = ""
      · subst hs; simp [truthyS, hn, hmem]
      · rcases hval s hn with h | h
        · simp [truthyS, hn, hs, h]
        · exact absurd h hs

/-- C3 witness: a valid move to "forest" goes through and stays inside
the closed set. -/
theorem c3_amended_witness :
    (applyUpdate initialState "n"
      { emptyUpdates with newLocation := some "forest" } 0).currentLocation = "forest" ∧
    (applyUpdate initialState "n"
      { emptyUpdates with newLocation := some "forest" } 0).currentLocation ∈ locationIds :=
  ⟨(c3_amended_location_verbatim initialState "n" _ 0).1 (by decide),
   (c3_amended_location_verbatim initialState "n" _ 0).2.2 (by decide)
     (by intro s hs; injection hs with h; exact Or.inl (h ▸ (by decide)))⟩

/-- C4 counterexample: the created entry's id and timestamp come from the
ambient clock, so two calls with structurally equal state and update but
different clock readings yield structurally different outputs — the claim
as stated (equality "including the ids and timestamps") fails for the
code, whose `Date.now()` is not part of the claimed inputs. -/
theorem c4_clock_counterexample :
    applyUpdate initialState "n" emptyUpdates 0 ≠
      applyUpdate initialState "n" emptyUpdates 1 := by
  decide

/-- C4 (amended): the reducer is pure and deterministic once the clock
reading is taken as an explicit input: structurally equal state, update
and clock yield structurally equal outputs (and, the embedding being
functional, the input state value is never mutated). -/
theorem c4_amended_deterministic (s1 s2 : GameState) (n1 n2 : String)
    (u1 u2 : UpdateFields) (t1 t2 : Nat)
    (hs : s1 = s2) (hn : n1 = n2) (hu : u1 = u2) (ht : t1 = t2) :
    applyUpdate s1 n1 u1 t1 = applyUpdate s2 n2 u2 t2 := by
  subst hs; subst hn; subst hu; subst ht; rfl

/-- C4 witness: determinism at a concrete input. -/
theorem c4_amended_witness :
    applyUpdate initialState "a" emptyUpdates 7 =
      applyUpdate initialState "a" emptyUpdates 7 :=
  c4_amended_deterministic _ _ _ _ _ _ _ _ rfl rfl rfl rfl

/-- C5: inventory keeps set semantics.  Applying any update to a
duplicate-free state yields a duplicate-free inventory, and adding
`"Key"` twice in a row yields an inventory containing `"Key"` exactly
once. -/
theorem c5_inventory_set (prev : GameState) (n n1 n2 : String)
    (u : UpdateFields) (t t1 t2 : Nat) (h : prev.inventory.Nodup) :
    (applyUpdate prev n u t).inventory.Nodup ∧
    (applyUpdate (applyUpdate prev n1 keyU t1) n2 keyU t2).inventory.count "Key" = 1 := by
  constructor
  · rw [applyUpdate_eq]
    by_cases h3 : truthyS u.itemRemoved
    · simp only [h3, if_true]
      exact h.filter _
    · by_cases h2 : truthyS u.itemAdded
      · simp only [h3, h2, if_true, if_false, Bool.false_eq_true]
        exact jsSet_nodup _
      · simp only [h3, h2, if_false, Bool.false_eq_true]
        exact h
  · have e1 : (applyUpdate prev n1 keyU t1).inventory =
        jsSet (prev.inventory ++ ["Key"]) := rfl
    have e2 : (applyUpdate (applyUpdate prev n1 keyU t1) n2 keyU t2).inventory =
        jsSet ((applyUpdate prev n1 keyU t1).inventory ++ ["Key"]) := rfl
    rw [e2, e1, jsSet_append_singleton h]
    by_cases hk : "Key" ∈ prev.inventory
    · rw [if_pos hk, jsSet_append_singleton h, if_pos hk]
      exact List.count_eq_one_of_mem h hk
    · rw [if_neg hk]
      have hnd : (prev.inventory ++ ["Key"]).Nodup := by
        rw [List.nodup_append]
        refine ⟨h, List.nodup_singleton _, ?_⟩
        intro a ha hsing
        rw [List.mem_singleton] at hsing
        exact hk (hsing ▸ ha)
      have hmem : "Key" ∈ prev.inventory ++ ["Key"] := by simp
      rw [jsSet_append_singleton hnd, if_pos hmem]
      exact List.count_eq_one_of_mem hnd hmem

/-- C5 witness: the Key-twice scenario from the empty initial
inventory. -/
theorem c5_witness :
    (applyUpdate initialState "a" keyU 1).inventory.Nodup ∧
    (applyUpdate (applyUpdate initialState "a" keyU 1) "b" keyU 2).inventory.count "Key" = 1 :=
  ⟨(c5_inventory_set initialState "a" "a" "b" keyU 1 1 2 (by decide)).1,
   (c5_inventory_set initialState "a" "a" "b" keyU 1 1 2 (by decide)).2⟩

/-- C6 counterexample: clue ids are `Date.now().toString()`, so two
clue-creating updates applied at the same clock reading produce two clues
with the same id — uniqueness across the session fails as claimed. -/
theorem c6_clue_id_collision :
    ¬ (((applyUpdate (applyUpdate initialState "a" clueU 5) "b" clueU 5).clues.map
        Clue.id).Nodup) := by
  decide

/-- C6 (amended): over any sequence of updates the clue list never
shrinks and existing clues are preserved verbatim (append-only), and the
created ids are unique provided the clue-creating applications happen at
pairwise distinct clock readings (distinct renderings), which the code
does not itself enforce. -/
theorem c6_amended_clue_monotone (s : GameState)
    (steps : List (String × UpdateFields × Nat)) :
    s.clues.length ≤ (applySeq s steps).clues.length ∧
    (applySeq s steps).clues.take s.clues.length = s.clues ∧
    ((s.clues.map Clue.id ++ clueIdsAdded steps).Nodup →
      ((applySeq s steps).clues.map Clue.id).Nodup) := by
  have hc := applySeq_clues steps s
  refine ⟨?_, ?_, ?_⟩
  · rw [hc]; simp
  · rw [hc]; exact List.take_left _ _
  · intro h
    rw [hc, List.map_append]
    have hids : (steps.filterMap
        (fun p => p.2.1.clueAdded.map (fun c => mkClue c p.2.2))).map Clue.id =
        clueIdsAdded steps := by
      rw [List.map_filterMap]
      unfold clueIdsAdded
      congr 1
      funext p
      cases p.2.1.clueAdded <;> simp [mkClue]
    rw [hids]
    exact h

/-- C6 witness: two clue-creating turns at distinct clocks from the
initial state give duplicate-free ids. -/
theorem c6_amended_witness :
    ((applySeq initialState [("a", clueU, 1), ("b", clueU, 2)]).clues.map Clue.id).Nodup :=
  (c6_amended_clue_monotone initialState [("a", clueU, 1), ("b", clueU, 2)]).2.2 (by decide)

/-- C7: frame property.  An update with every optional field absent
changes only `narrativeHistory`, by exactly one appended GM entry; and no
update of any shape ever changes `phase`, `trust` or `puzzleActive`. -/
theorem c7_frame_property (prev : GameState) (n : String)
    (u : UpdateFields) (t : Nat) :
    (u.newLocation = none → u.itemAdded = none → u.itemRemoved = none →
      u.clueAdded = none → u.memoryTriggered = none →
      applyUpdate prev n u t =
        { prev with narrativeHistory := prev.narrativeHistory ++ [gmEntry n u t] }) ∧
    ((applyUpdate prev n u t).phase = prev.phase ∧
      (applyUpdate prev n u t).trust = prev.trust ∧
      (applyUpdate prev n u t).puzzleActive = prev.puzzleActive) := by
  constructor
  · intro h1 h2 h3 h4 _
    rw [applyUpdate_eq]
    simp [h1, h2, h3, h4, truthyS]
  · rw [applyUpdate_eq]
    exact ⟨rfl, rfl, rfl⟩

/-- C7 witness: the all-absent update at a concrete input. -/
theorem c7_frame_witness :
    applyUpdate initialState "n" emptyUpdates 3 =
      { initialState with
        narrativeHistory := initialState.narrativeHistory ++ [gmEntry "n" emptyUpdates 3] } :=
  (c7_frame_property initialState "n" emptyUpdates 3).1 rfl rfl rfl rfl rfl

/-- C8: turn sequencing.  From Idle, `submitAction` synchronously appends
exactly one player entry with speaker "Alex", type "action" and the
submitted text, and sets the busy flag; while that turn is pending a
second `submitAction` is a no-op (it returns the state unchanged). -/
theorem c8_turn_sequencing (app : AppState) (a : String) (t : Nat)
    (h : app.isLoading = false) :
    submitAction app a t =
      { app with
        gameState := { app.gameState with
          narrativeHistory := app.gameState.narrativeHistory ++ [playerEntry a t] },
        isLoading := true } ∧
    (playerEntry a t).speaker = "Alex" ∧
    (playerEntry a t).type = "action" ∧
    (playerEntry a t).text = a ∧
    (∀ a2 t2, submitAction (submitAction app a t) a2 t2 = submitAction app a t) := by
  have hfirst : submitAction app a t =
      { app with
        gameState := { app.gameState with
          narrativeHistory := app.gameState.narrativeHistory ++ [playerEntry a t] },
        isLoading := true } := by
    rw [submitAction, if_neg (by simp [h])]
  refine ⟨hfirst, rfl, rfl, rfl, ?_⟩
  intro a2 t2
  have hbusy : (submitAction app a t).isLoading = true := by rw [hfirst]
  rw [submitAction, if_pos hbusy]

/-- C8 witness: the sequencing scenario at a concrete input. -/
theorem c8_witness :
    submitAction (submitAction failedTurnStart "search the desk" 1) "open door" 2 =
      submitAction failedTurnStart "search the desk" 1 :=
  (c8_turn_sequencing failedTurnStart "search the desk" 1 rfl).2.2.2.2 "open door" 2

/-- C9 counterexample: `processResponse` reads `part.functionCall.args`
unguarded, so a reply whose function call has no `args` object raises a
`TypeError` — the normalizer is not total over every raw reply. -/
theorem c9_argsless_counterexample :
    processResponse argslessReply =
      Except.error "TypeError: cannot read properties of undefined" := rfl

/-- C9 (amended): the normalizer behaves as specified on every reply
whose function-call parts carry an `args` object: a structured call's
fields are extracted verbatim, a text-only reply becomes
`{narrative: text, updates: {}}`, an empty or unrecognized reply becomes
`{narrative: "...", updates: {}}`, and under that proviso it never
throws. -/
theorem c9_amended_normalizer (raw : RawResult) :
    (∀ part fc args, findFunctionCallPart raw = some part →
      part.functionCall = some fc → fc.args = some args →
      processResponse raw = Except.ok
        { narrative := args.narrative,
          updates := some
            { newLocation := args.newLocation, itemAdded := args.itemAdded,
              itemRemoved := args.itemRemoved, clueAdded := args.clueAdded,
              memoryTriggered := args.memoryTriggered },
          error := none, toolCallId := fc.id, functionName := fc.name }) ∧
    (∀ part, findFunctionCallPart raw = none → findTextPart raw = some part →
      processResponse raw = Except.ok
        { narrative := part.text.getD "", updates := some emptyUpdates,
          error := none, toolCallId := none, functionName := none }) ∧
    (findFunctionCallPart raw = none → findTextPart raw = none →
      processResponse raw = Except.ok
        { narrative := "...", updates := some emptyUpdates,
          error := none, toolCallId := none, functionName := none }) ∧
    ((∀ p ∈ partsOf raw, ∀ fc, p.functionCall = some fc → fc.args.isSome = true) →
      ∃ r, processResponse raw = Except.ok r) := by
  refine ⟨?_, ?_, ?_, ?_⟩
  · intro part fc args hfind hfc hargs
    simp [processResponse, hfind, hfc, hargs]
  · intro part hfind htext
    simp [processResponse, hfind, htext]
  · intro hfind htext
    simp [processResponse, hfind, htext]
  · intro hall
    cases hfind : findFunctionCallPart raw with
    | none =>
        cases htext : findTextPart raw <;> simp [processResponse, hfind, htext]
    | some part =>
        have hfind' : (partsOf raw).find? (fun p => p.functionCall.isSome) = some part :=
          hfind
        have hmem : part ∈ partsOf raw := List.mem_of_find?_eq_some hfind'
        have hpred := List.find?_some hfind'
        obtain ⟨fc, hfc⟩ := Option.isSome_iff_exists.mp hpred
        obtain ⟨args, hargs⟩ := Option.isSome_iff_exists.mp (hall part hmem fc hfc)
        simp [processResponse, hfind, hfc, hargs]

/-- C9 witness: a concrete structured reply is normalized verbatim. -/
theorem c9_amended_witness :
    processResponse structuredReply = Except.ok
      { narrative := "You find a rusty key.",
        updates := some
          { newLocation := none, itemAdded := some "Rusty Key", itemRemoved := none,
            clueAdded := some { name := "Strange Note", description := "torn" },
            memoryTriggered := none },
        error := none, toolCallId := some "call1",
        functionName := some "updateGameState" } :=
  (c9_amended_normalizer structuredReply).1 structuredPart structuredCall structuredArgs
    (by decide) (by decide) (by decide)

/-- C10: submitting a player action with no live session returns the
fixed "Game session lost. Please restart." failure update with the error
flag set, independently of the would-be service outcome (no service call
is consulted) and without throwing (the function is total). -/
theorem c10_no_session (action : String) (st : GameState) (svc : ServiceOutcome) :
    sendPlayerAction none action st svc =
      { narrative := "Game session lost. Please restart.", updates := none,
        error := some true, toolCallId := none, functionName := none } := rfl

end DD
